import Mathlib

/-!
Shallow embedding of the PowerStore `remotesystem` Ansible module
(`plugins/modules/remotesystem.py`): the remote-system reconciler
(`perform_module_operation`), its lookup, certificate-exchange,
create/modify/delete helpers and the `modify_remote_system_required`
diff predicate.  External REST calls are modelled by an environment of
response oracles; the reconciler is a pure function from the caller's
parameters and that environment to an outcome together with the trace
of Array Client calls it issued.
-/

namespace RemoteSystemMod

/-- Python truthiness of an optional string parameter: `None` and the
empty string are falsy, every other string is truthy. -/
def truthyS : Option String → Bool
  | none => false
  | some s => s ≠ ""

/-- A cluster record, as returned by `get_cluster_list` (only the two
fields the module reads). -/
structure Cluster where
  name : String
  id : String
deriving DecidableEq, Repr

/-- A remote-system record as fetched from the array.  `description`
and `data_network_latency` may be JSON null (`none`). -/
structure RemoteSys where
  id : String
  name : String
  management_address : String
  description : Option String
  data_network_latency : Option String
deriving DecidableEq, Repr

/-- The dictionary view of a fetched remote-system record, as iterated
by `modify_remote_system_required` (values are `none` for JSON null). -/
def toDict (d : RemoteSys) : List (String × Option String) :=
  [("id", some d.id), ("name", some d.name),
   ("management_address", some d.management_address),
   ("description", d.description),
   ("data_network_latency", d.data_network_latency)]

/-- The response of `create_remote_system`: the module only reads
`resp.get('id')`, which is `None` when the key is missing. -/
structure CreateResp where
  id : Option String
deriving DecidableEq, Repr

/-- Result of one Array Client call: success, an HTTP-404 exception
(`PowerStoreException` with `status_code == "404"`), or any other
exception. -/
inductive ApiResult (α : Type) where
  | ok (a : α)
  | http404
  | err (msg : String)
deriving DecidableEq, Repr

/-- The dictionary sent to `exchange_certificate` (source lines
408-414). -/
structure ExchangeDict where
  address : Option String
  port : Int
  username : Option String
  password : Option String
  service : String
deriving DecidableEq, Repr

/-- One Array Client call, recorded in order of issue. -/
inductive Event where
  | getClusters
  | lookupAddr (a : String)
  | lookupId (i : Option String)
  | exchange (d : ExchangeDict)
  | create (d : List (String × Option String))
  | modify (id : Option String) (d : List (String × Option String)) (isAsync : Bool)
  | delete (id : Option String) (isAsync : Bool)
deriving DecidableEq, Repr

/-- Events that mutate array state (certificate exchange, create,
modify, delete); lookups and the cluster list query are read-only. -/
def isMutation : Event → Bool
  | .exchange _ => true
  | .create _ => true
  | .modify _ _ _ => true
  | .delete _ _ => true
  | _ => false

/-- Recognizer for certificate-exchange events. -/
def isExchange : Event → Bool
  | .exchange _ => true
  | _ => false

/-- Recognizer for create events. -/
def isCreate : Event → Bool
  | .create _ => true
  | _ => false

/-- Recognizer for modify events. -/
def isModify : Event → Bool
  | .modify _ _ _ => true
  | _ => false

/-- The Array Client: an oracle giving the array's response to each
primitive call. -/
structure Env where
  get_cluster_list : ApiResult (List Cluster)
  byAddress : String → ApiResult (List RemoteSys)
  byId : Option String → ApiResult (Option RemoteSys)
  exchangeCert : ExchangeDict → ApiResult Unit
  createRS : List (String × Option String) → ApiResult CreateResp
  modifyRS : Option String → List (String × Option String) → Bool → ApiResult (Option String)
  deleteRS : Option String → Bool → ApiResult (Option String)

/-- The module parameters after Ansible argument processing
(`remote_port` defaulted to 443; `state` is one of "present"/"absent"
by the argument spec's choices). -/
structure Params where
  remote_user : Option String
  remote_password : Option String
  remote_port : Int
  remote_name : Option String
  remote_id : Option String
  remote_address : Option String
  new_remote_address : Option String
  description : Option String
  network_latency : Option String
  wait_for_completion : Option Bool
  state : String
deriving DecidableEq, Repr

/-- The dictionary passed to `module.exit_json`: `changed` and
`job_details` are always present; the `remote_system_details` key is
present (`some`) or absent (`none`), and when present its value may be
null. -/
structure ResultDict where
  changed : Bool
  job_details : Option String
  remote_system_details : Option (Option RemoteSys)
deriving DecidableEq, Repr

/-- How one run of `perform_module_operation` ends: `fail_json`,
`exit_json`, or an uncaught Python exception (subscripting `None` at
source line 570 when the post-create fetch returned a falsy value). -/
inductive Outcome where
  | fail (msg : String)
  | exit (r : ResultDict)
  | crash
deriving DecidableEq, Repr

/-- Source lines 608-618: modification is required iff some key of the
fetched record also occurs in the passed arguments with a non-null
value different from the record's value. -/
def modify_remote_system_required (remote_sys_details passed_args : List (String × Option String)) : Bool :=
  remote_sys_details.any fun kv =>
    match List.lookup kv.1 passed_args with
    | some (some v) => kv.2 ≠ some v
    | _ => false

/-- The id-branch of `get_remote_system_details` (source lines
373-384): query by id; a falsy response propagates as `none`; a 404
exception maps to `none`; any other exception is fatal. -/
def lookupByIdPath (env : Env) (remote_sys_id : Option String) :
    Except String (Option RemoteSys) × List Event :=
  match env.byId remote_sys_id with
  | .ok resp => (.ok resp, [.lookupId remote_sys_id])
  | .http404 => (.ok none, [.lookupId remote_sys_id])
  | .err m => (.error ("Get details of remote system failed with error : " ++ m),
               [.lookupId remote_sys_id])

/-- Source lines 356-397: resolve a remote system by management
address when `remote_sys_address` is truthy (first element of the
result set, `none` when empty), else by id; a 404-class exception
returns `none`; any other exception is fatal. -/
def get_remote_system_details (env : Env) (remote_sys_address remote_sys_id : Option String) :
    Except String (Option RemoteSys) × List Event :=
  match remote_sys_address with
  | some a =>
      if a = "" then lookupByIdPath env remote_sys_id
      else
        match env.byAddress a with
        | .ok resp => (.ok resp.head?, [.lookupAddr a])
        | .http404 => (.ok none, [.lookupAddr a])
        | .err m => (.error ("Get details of remote system failed with error : " ++ m),
                     [.lookupAddr a])
  | none => lookupByIdPath env remote_sys_id

/-- The dictionary sent on certificate exchange (source lines
408-414). -/
def exchDict (p : Params) : ExchangeDict :=
  { address := p.remote_address, port := p.remote_port,
    username := p.remote_user, password := p.remote_password,
    service := "Replication_HTTP" }

/-- Source lines 399-421: exchange certificates; any failure is
fatal. -/
def exchange_certificates (env : Env) (d : ExchangeDict) :
    Except String Unit × List Event :=
  match env.exchangeCert d with
  | .ok _ => (.ok (), [.exchange d])
  | .http404 => (.error "Exchange certificate on PowerStore array failed with error", [.exchange d])
  | .err m => (.error ("Exchange certificate on PowerStore array failed with error " ++ m), [.exchange d])

/-- Source lines 423-447: create the remote system then immediately
re-fetch full details by the returned id; any exception in either call
is fatal. -/
def create_remote_system (env : Env) (remote_address description network_latency : Option String) :
    Except String (Bool × Option RemoteSys) × List Event :=
  let d : List (String × Option String) :=
    [("management_address", remote_address), ("description", description),
     ("data_network_latency", network_latency)]
  match env.createRS d with
  | .ok resp =>
      match env.byId resp.id with
      | .ok details => (.ok (true, details), [.create d, .lookupId resp.id])
      | .http404 => (.error "create remote system failed with error", [.create d, .lookupId resp.id])
      | .err m => (.error ("create remote system failed with error " ++ m), [.create d, .lookupId resp.id])
  | .http404 => (.error "create remote system failed with error", [.create d])
  | .err m => (.error ("create remote system failed with error " ++ m), [.create d])

/-- Source lines 449-466: apply the patch dictionary; any failure is
fatal. -/
def modify_remote_system (env : Env) (remote_sys_id : Option String)
    (modify_dict : List (String × Option String)) (is_async : Bool) :
    Except String (Bool × Option String) × List Event :=
  match env.modifyRS remote_sys_id modify_dict is_async with
  | .ok resp => (.ok (true, resp), [.modify remote_sys_id modify_dict is_async])
  | .http404 => (.error "Modify remote system failed with error", [.modify remote_sys_id modify_dict is_async])
  | .err m => (.error ("Modify remote system failed with error " ++ m), [.modify remote_sys_id modify_dict is_async])

/-- Source lines 468-485: delete by id; any failure is fatal. -/
def delete_remote_system (env : Env) (remote_sys_id : Option String) (is_async : Bool) :
    Except String (Bool × Option String) × List Event :=
  match env.deleteRS remote_sys_id is_async with
  | .ok resp => (.ok (true, resp), [.delete remote_sys_id is_async])
  | .http404 => (.error "Delete remote system failed with error", [.delete remote_sys_id is_async])
  | .err m => (.error ("Delete remote system failed with error " ++ m), [.delete remote_sys_id is_async])

/-- Source lines 540-552: when the lookup found a record, back-fill a
falsy `remote_sys_id` from the found id; fail when a truthy
`remote_sys_name` differs from the found name; when `remote_sys_name`
is falsy adopt the found name, and additionally adopt the found
management address when `remote_sys_address` is also falsy. -/
def backfill (remote_sys_id remote_sys_name remote_sys_address : Option String) (d : RemoteSys) :
    Except String (Option String × Option String × Option String) :=
  let rid := if truthyS remote_sys_id then remote_sys_id else some d.id
  if truthyS remote_sys_name = true ∧ remote_sys_name ≠ some d.name then
    .error "Please enter a valid remote_name. It is not matching the fetched remote system instance"
  else if truthyS remote_sys_name then
    .ok (rid, remote_sys_name, remote_sys_address)
  else
    .ok (rid, some d.name,
         if truthyS remote_sys_address then remote_sys_address else some d.management_address)

/-- The candidate patch dictionary built at source lines 580-584. -/
def modifyDict (p : Params) : List (String × Option String) :=
  [("management_address", p.new_remote_address), ("description", p.description),
   ("data_network_latency", p.network_latency)]

/-- Source lines 600-604: the exit dictionary; `remote_system_details`
is included exactly when `job_details` is falsy. -/
def mkResult (changed : Bool) (job_id : Option String) (details : Option RemoteSys) : ResultDict :=
  { changed := changed, job_details := job_id,
    remote_system_details := if truthyS job_id then none else some details }

/-- How a run aborts before reaching `exit_json`: `fail_json`, or an
uncaught Python exception (subscripting `None` at source line 570 when
the post-create fetch returned a falsy value). -/
inductive RunErr where
  | fatal (msg : String)
  | pyCrash
deriving DecidableEq, Repr

/-- Lift a helper's fatal `fail_json` error into `RunErr`. -/
def liftStage {α : Type} (r : Except String α × List Event) : Except RunErr α × List Event :=
  match r with
  | (.ok x, evs) => (.ok x, evs)
  | (.error m, evs) => (.error (.fatal m), evs)

/-- Source lines 579-599: the modify branch.  Entered with the current
`remote_sys_details`, `changed` and `job_id` (the state reaching line
579); issues a modify call when `modify_remote_system_required` holds,
storing the response as the job handle when asynchronous and
re-fetching details by id when synchronous.  Returns the
`(changed, job_id, remote_sys_details)` triple reaching line 600. -/
def modify_stage (p : Params) (env : Env) (is_async : Bool) (remote_sys_id : Option String)
    (changed : Bool) (job_id : Option String) (details : Option RemoteSys) :
    Except String (Bool × Option String × Option RemoteSys) × List Event :=
  match details with
  | some d =>
      if p.state = "present" then
        let md := modifyDict p
        if modify_remote_system_required (toDict d) md then
          match modify_remote_system env remote_sys_id md is_async with
          | (.ok (c, resp), evs) =>
              if is_async then
                (.ok (c, resp, some d), evs)
              else
                match get_remote_system_details env none remote_sys_id with
                | (.ok dets, evs2) => (.ok (c, job_id, dets), evs ++ evs2)
                | (.error m, evs2) => (.error m, evs ++ evs2)
          | (.error m, evs) => (.error m, evs)
        else (.ok (changed, job_id, some d), [])
      else (.ok (changed, job_id, some d), [])
  | none => (.ok (changed, job_id, none), [])

/-- Source lines 540-599 after the lookup: back-fill/validate
identifiers when a record was found, then the create, delete and
modify branches in source order.  Returns the
`(changed, job_id, remote_sys_details)` triple reaching line 600. -/
def reconcile_core (p : Params) (env : Env) (is_async : Bool) (details0 : Option RemoteSys) :
    Except RunErr (Bool × Option String × Option RemoteSys) × List Event :=
  match details0 with
  | some d =>
      match backfill p.remote_id p.remote_name p.remote_address d with
      | .error m => (.error (.fatal m), [])
      | .ok (rid, _, _) =>
          if p.state = "absent" then
            match delete_remote_system env rid is_async with
            | (.ok (c, resp), evs) =>
                let r := liftStage (modify_stage p env is_async rid c resp none)
                (r.1, evs ++ r.2)
            | (.error m, evs) => (.error (.fatal m), evs)
          else
            liftStage (modify_stage p env is_async rid false none (some d))
  | none =>
      if p.state = "present" then
        if truthyS p.remote_id ∨ truthyS p.remote_name then
          (.error (.fatal "remote_id/remote_name cannot be passed during creation. Please enter valid parameters for creation of remote system."), [])
        else
          match exchange_certificates env (exchDict p) with
          | (.error m, evs) => (.error (.fatal m), evs)
          | (.ok _, evs) =>
              match create_remote_system env p.remote_address p.description p.network_latency with
              | (.error m, evs2) => (.error (.fatal m), evs ++ evs2)
              | (.ok (c, details1), evs2) =>
                  match details1 with
                  | none => (.error .pyCrash, evs ++ evs2)
                  | some d1 =>
                      let r := liftStage (modify_stage p env is_async (some d1.id) c none (some d1))
                      (r.1, evs ++ evs2 ++ r.2)
      else
        liftStage (modify_stage p env is_async p.remote_id false none none)

/-- Source lines 513-516: the async flag is true unless the caller
set `wait_for_completion`. -/
def isAsyncOf (p : Params) : Bool :=
  match p.wait_for_completion with
  | none => true
  | some b => !b

/-- Source lines 600-605: map the `(changed, job_id, details)` triple
reaching line 600 to the exit dictionary, and an abort to the
corresponding terminal outcome. -/
def outcomeOf : Except RunErr (Bool × Option String × Option RemoteSys) → Outcome
  | .ok (c, j, dets) => .exit (mkResult c j dets)
  | .error (.fatal m) => .fail m
  | .error .pyCrash => .crash

/-- Source lines 499-605: the whole reconciliation.  Computes the
async flag, checks the active-cluster precondition, rejects a truthy
`remote_name` unaccompanied by a truthy address or id, looks up the
current record, dispatches to `reconcile_core`, and builds the exit
dictionary (lines 600-605) from the resulting triple. -/
def perform_module_operation (p : Params) (env : Env) : Outcome × List Event :=
  match env.get_cluster_list with
  | .ok clusters =>
      if clusters.length > 0 then
        if truthyS p.remote_name && !truthyS p.remote_address && !truthyS p.remote_id then
          (.fail "With remote_name, remote_address or remote_id is required to perform Get/Update/Delete.",
           [.getClusters])
        else
          match get_remote_system_details env p.remote_address p.remote_id with
          | (.error m, evs) => (.fail m, .getClusters :: evs)
          | (.ok details0, evs) =>
              let r := reconcile_core p env (isAsyncOf p) details0
              (outcomeOf r.1, .getClusters :: (evs ++ r.2))
      else (.fail "Unable to find any active cluster on this array", [.getClusters])
  | .http404 => (.fail "Failed to get the clusters with error", [.getClusters])
  | .err m => (.fail ("Failed to get the clusters with error " ++ m), [.getClusters])

/-- A patch map only names differing fields: every non-null entry of
the patch differs from the same-named attribute of the current
record. -/
def patchOnlyDiffers (d : RemoteSys) (patch : List (String × Option String)) : Bool :=
  patch.all fun kv =>
    match kv.2 with
    | none => true
    | some w => decide (List.lookup kv.1 (toDict d) ≠ some (some w))

/-- Fixture: a concrete fetched remote-system record. -/
def d0 : RemoteSys := ⟨"abc", "peer1", "10.1.1.1", some "d", some "Low"⟩

/-- Fixture: a concrete Array Client environment holding exactly the
record `d0`. -/
def env0 : Env :=
  { get_cluster_list := .ok [⟨"cl", "cid"⟩]
    byAddress := fun a => if a = "10.1.1.1" then .ok [d0] else .ok []
    byId := fun i => if i = some "abc" then .ok (some d0) else .http404
    exchangeCert := fun _ => .ok ()
    createRS := fun _ => .ok ⟨some "abc"⟩
    modifyRS := fun _ _ _ => .ok (some "job1")
    deleteRS := fun _ _ => .ok none }

/-- Fixture: baseline parameters (all optional inputs unset, port at
its default 443, state present). -/
def pBase : Params :=
  { remote_user := none, remote_password := none, remote_port := 443,
    remote_name := none, remote_id := none, remote_address := none,
    new_remote_address := none, description := none, network_latency := none,
    wait_for_completion := none, state := "present" }

/-- Fixture: a desired spec whose `new_remote_address` differs from
the current record while its supplied `description` equals the current
one. -/
def pPatch : Params :=
  { pBase with remote_id := some "abc", new_remote_address := some "10.0.0.2",
               description := some "d" }

/-- Fixture: a creation spec (address and credentials supplied, no
matching record in `env0`). -/
def pCreate : Params :=
  { pBase with remote_address := some "10.9.9.9", remote_user := some "admin",
               remote_password := some "x" }

/-- Fixture: a creation spec that also supplies `remote_id`. -/
def pReject : Params :=
  { pBase with remote_address := some "10.9.9.9", remote_id := some "zzz" }

/-- Fixture: an environment whose address lookup raises a non-404
error and whose id lookup raises a 404. -/
def envErr : Env :=
  { get_cluster_list := .ok [⟨"cl", "cid"⟩]
    byAddress := fun _ => .err "boom"
    byId := fun _ => .http404
    exchangeCert := fun _ => .err "down"
    createRS := fun _ => .err "down"
    modifyRS := fun _ _ _ => .err "down"
    deleteRS := fun _ _ => .err "down" }

/-- Fixture: a spec addressing `d0` by management address but naming a
different system. -/
def pMismatch : Params :=
  { pBase with remote_address := some "10.1.1.1", remote_name := some "other" }

/-- Fixture: a one-entry record as fetched from the array. -/
def recW : List (String × Option String) := [("description", some "d")]

/-- Fixture: a no-op modify spec for the record `d0`. -/
def pNoop : Params := { pBase with remote_id := some "abc", description := some "d" }

/-- Fixture: a creation-state spec supplying `remote_id` as the empty
string. -/
def pEmptyId : Params := { pBase with remote_id := some "" }

/-- Fixture: a spec addressing `d0` that supplies `remote_name` as the
empty string (differing from the found name) plus a changed
description. -/
def pEmptyName : Params :=
  { pBase with remote_address := some "10.1.1.1", remote_name := some "",
               description := some "newd" }

/-- Every event emitted by a lookup is read-only (never an exchange,
create, modify or delete). -/
theorem lookup_no_mutation (env : Env) (addr i : Option String) :
    ((get_remote_system_details env addr i).2.all fun e => !isMutation e) = true := by
  unfold get_remote_system_details lookupByIdPath
  rcases addr with _ | a
  · cases h : env.byId i <;> simp [h, isMutation]
  · by_cases ha : a = "" <;>
    cases h : env.byId i <;>
    cases h2 : env.byAddress a <;>
    simp [ha, h, h2, isMutation]

/-- A trace of read-only events filters to the empty mutation list. -/
theorem filter_no_mutation (l : List Event)
    (h : (l.all fun e => !isMutation e) = true) :
    l.filter isMutation = [] := by
  induction l with
  | nil => rfl
  | cons e t ih =>
      simp only [List.all_cons, Bool.and_eq_true] at h
      obtain ⟨h1, h2⟩ := h
      have he : isMutation e = false := by
        cases hm : isMutation e
        · rfl
        · rw [hm] at h1; exact absurd h1 (by simp)
      simp [List.filter_cons, he, ih h2]

/-- When state is present and a modification is required, the modify
branch's mutating calls are exactly the one modify call carrying the
full candidate patch and the run's async flag. -/
theorem modify_stage_mutations (p : Params) (env : Env) (a : Bool) (rid : Option String)
    (c : Bool) (j : Option String) (d : RemoteSys)
    (hstate : p.state = "present")
    (hmod : modify_remote_system_required (toDict d) (modifyDict p) = true) :
    (modify_stage p env a rid c j (some d)).2.filter isMutation
      = [.modify rid (modifyDict p) a] := by
  have hflev : ((get_remote_system_details env none rid).2.filter isMutation) = [] :=
    filter_no_mutation _ (lookup_no_mutation env none rid)
  unfold modify_stage modify_remote_system
  cases h1 : env.modifyRS rid (modifyDict p) a with
  | ok resp =>
      cases a
      · rcases hre : get_remote_system_details env none rid with ⟨re, evs2⟩
        rw [hre] at hflev
        dsimp only at hflev
        cases re <;> simp [hstate, hmod, h1, hre, List.filter_append, hflev, isMutation]
      · simp [hstate, hmod, h1, isMutation]
  | http404 => simp [hstate, hmod, h1, isMutation]
  | err m => simp [hstate, hmod, h1, isMutation]

/-- Every event emitted by the modify branch (modify call, follow-up
fetch) is neither a certificate exchange nor a create call. -/
theorem modify_stage_no_exchange_create (p : Params) (env : Env) (a : Bool)
    (rid : Option String) (c : Bool) (j : Option String) (dets : Option RemoteSys) :
    ((modify_stage p env a rid c j dets).2.all fun e => !isExchange e && !isCreate e) = true := by
  unfold modify_stage modify_remote_system get_remote_system_details lookupByIdPath
  rcases dets with _ | d
  · simp
  · by_cases hs : p.state = "present" <;>
    by_cases hm : modify_remote_system_required (toDict d) (modifyDict p) = true <;>
    cases h1 : env.modifyRS rid (modifyDict p) a <;>
    cases h2 : env.byId rid <;>
    cases a <;>
    simp_all [isExchange, isCreate]

/-- The lift of a stage result leaves its event trace unchanged. -/
theorem liftStage_snd {α : Type} (r : Except String α × List Event) :
    (liftStage r).2 = r.2 := by
  rcases r with ⟨e, evs⟩
  cases e <;> rfl

/-- On the create path, the certificate-exchange call is the first
event emitted, no later event is an exchange, and a failing exchange
ends the run fatally with no further event (in particular no create
call). -/
theorem reconcile_create_shape (p : Params) (env : Env) (is_async : Bool)
    (hname : truthyS p.remote_name = false) (hid : truthyS p.remote_id = false)
    (hstate : p.state = "present") :
    ∃ rest, (reconcile_core p env is_async none).2 = .exchange (exchDict p) :: rest ∧
      (rest.all fun e => !isExchange e) = true ∧
      (env.exchangeCert (exchDict p) ≠ .ok () → rest = [] ∧
        ∃ m, (reconcile_core p env is_async none).1 = .error (.fatal m)) := by
  unfold reconcile_core exchange_certificates create_remote_system
  rw [hstate]
  simp only [hname, hid, Bool.false_eq_true, or_self, if_false, if_true, reduceIte]
  cases hex : env.exchangeCert (exchDict p) with
  | ok u =>
      cases u
      cases hcr : env.createRS [("management_address", p.remote_address),
          ("description", p.description), ("data_network_latency", p.network_latency)] with
      | ok resp =>
          cases hby : env.byId resp.id with
          | ok dd =>
              cases dd with
              | none =>
                  refine ⟨[.create [("management_address", p.remote_address),
                      ("description", p.description), ("data_network_latency", p.network_latency)],
                      .lookupId resp.id], ?_, ?_, ?_⟩ <;>
                    simp [hcr, hby, hex, isExchange]
              | some d1 =>
                  refine ⟨.create [("management_address", p.remote_address),
                      ("description", p.description), ("data_network_latency", p.network_latency)] ::
                      .lookupId resp.id ::
                      (modify_stage p env is_async (some d1.id) true none (some d1)).2,
                      ?_, ?_, ?_⟩
                  · simp [hcr, hby, liftStage_snd]
                  · have h := modify_stage_no_exchange_create p env is_async (some d1.id) true
                      none (some d1)
                    simp only [List.all_eq_true, Bool.and_eq_true, List.mem_cons] at h ⊢
                    rintro e (rfl | rfl | he)
                    · simp [isExchange]
                    · simp [isExchange]
                    · exact (h e he).1
                  · simp [hex]
          | http404 =>
              refine ⟨[.create [("management_address", p.remote_address),
                  ("description", p.description), ("data_network_latency", p.network_latency)],
                  .lookupId resp.id], ?_, ?_, ?_⟩ <;>
                simp [hcr, hby, hex, isExchange]
          | err m =>
              refine ⟨[.create [("management_address", p.remote_address),
                  ("description", p.description), ("data_network_latency", p.network_latency)],
                  .lookupId resp.id], ?_, ?_, ?_⟩ <;>
                simp [hcr, hby, hex, isExchange]
      | http404 =>
          refine ⟨[.create [("management_address", p.remote_address),
              ("description", p.description), ("data_network_latency", p.network_latency)]],
              ?_, ?_, ?_⟩ <;>
            simp [hcr, hex, isExchange]
      | err m =>
          refine ⟨[.create [("management_address", p.remote_address),
              ("description", p.description), ("data_network_latency", p.network_latency)]],
              ?_, ?_, ?_⟩ <;>
            simp [hcr, hex, isExchange]
  | http404 => exact ⟨[], by simp, by simp, fun _ => ⟨rfl, _, rfl⟩⟩
  | err m => exact ⟨[], by simp, by simp, fun _ => ⟨rfl, _, rfl⟩⟩

/-- C1 counterexample: on this input exactly one modify call is
issued, but its patch map is not "exactly the differing fields": it
contains the non-null entry `description = "d"` although the fetched
record's `description` already equals `"d"` (and a null
`data_network_latency` entry besides). -/
theorem modify_patch_not_exact :
    (perform_module_operation pPatch env0).2.filter isModify
      = [.modify (some "abc")
          [("management_address", some "10.0.0.2"), ("description", some "d"),
           ("data_network_latency", none)] true] ∧
    patchOnlyDiffers d0
      [("management_address", some "10.0.0.2"), ("description", some "d"),
       ("data_network_latency", none)] = false ∧
    List.lookup "description" (toDict d0) = some (some "d") := by decide

/-- C1 as amended: for every spec with state=present that passes the
identifier guard and the name cross-check, where the lookup finds an
existing system and some patch field is non-null and differing,
exactly one mutating call is issued: a single modify carrying the
run's async flag — and its patch map is always the full three-field
candidate dictionary `modifyDict p` (nulls and unchanged supplied
values included), not the differing fields alone.  This holds for
synchronous and asynchronous runs, and for address-, id- or
name-identified specs alike. -/
theorem modify_issues_one_full_patch_call (p : Params) (env : Env) (c : Cluster)
    (d : RemoteSys) (levs : List Event)
    (hcl : env.get_cluster_list = .ok [c])
    (hguard : (truthyS p.remote_name && !truthyS p.remote_address && !truthyS p.remote_id) = false)
    (hlook : get_remote_system_details env p.remote_address p.remote_id = (.ok (some d), levs))
    (hnok : ¬(truthyS p.remote_name = true ∧ p.remote_name ≠ some d.name))
    (hstate : p.state = "present")
    (hmod : modify_remote_system_required (toDict d) (modifyDict p) = true) :
    (perform_module_operation p env).2.filter isMutation
      = [.modify (if truthyS p.remote_id then p.remote_id else some d.id)
          (modifyDict p) (isAsyncOf p)] := by
  have hflev : levs.filter isMutation = [] := by
    have hlev := lookup_no_mutation env p.remote_address p.remote_id
    rw [hlook] at hlev
    exact filter_no_mutation _ hlev
  have hbf : ∃ x y, backfill p.remote_id p.remote_name p.remote_address d
      = .ok ((if truthyS p.remote_id then p.remote_id else some d.id), x, y) := by
    simp only [backfill]
    rw [if_neg hnok]
    by_cases ht : truthyS p.remote_name = true
    · rw [if_pos ht]; exact ⟨_, _, rfl⟩
    · rw [if_neg ht]; exact ⟨_, _, rfl⟩
  obtain ⟨x, y, hbf⟩ := hbf
  have hms := modify_stage_mutations p env (isAsyncOf p)
    (if truthyS p.remote_id then p.remote_id else some d.id) false none d hstate hmod
  simp [perform_module_operation, hcl, hguard, hlook, reconcile_core, hbf, liftStage_snd,
        hstate, List.filter_append, hflev, hms, isMutation]

/-- C1 witness at a concrete input. -/
theorem modify_issues_one_full_patch_call_witness :
    (perform_module_operation pPatch env0).2.filter isMutation
      = [.modify (if truthyS pPatch.remote_id then pPatch.remote_id else some d0.id)
          (modifyDict pPatch) (isAsyncOf pPatch)] :=
  modify_issues_one_full_patch_call pPatch env0 ⟨"cl", "cid"⟩ d0 [.lookupId (some "abc")]
    rfl (by decide) rfl (by decide) rfl (by decide)

/-- C2: on the create path (state=present, lookup found nothing, no
remote_id/remote_name supplied), the certificate exchange is the first
event after the cluster query and the read-only lookup events, no
later event is an exchange — so it runs exactly once, strictly before
any create call — and a failing exchange ends the run fatally with no
further call, so the create call is never issued. -/
theorem exchange_once_before_create (p : Params) (env : Env) (c : Cluster) (levs : List Event)
    (hcl : env.get_cluster_list = .ok [c])
    (hname : p.remote_name = none) (hid : p.remote_id = none)
    (hlook : get_remote_system_details env p.remote_address p.remote_id = (.ok none, levs))
    (hstate : p.state = "present") :
    ∃ rest, (perform_module_operation p env).2
        = .getClusters :: (levs ++ .exchange (exchDict p) :: rest) ∧
      (levs.all fun e => !isMutation e) = true ∧
      (rest.all fun e => !isExchange e) = true ∧
      (env.exchangeCert (exchDict p) ≠ .ok () → rest = [] ∧
        ∃ m, (perform_module_operation p env).1 = .fail m) := by
  have hname2 : truthyS p.remote_name = false := by rw [hname]; rfl
  have hid2 : truthyS p.remote_id = false := by rw [hid]; rfl
  have hlev := lookup_no_mutation env p.remote_address p.remote_id
  rw [hlook] at hlev
  obtain ⟨rest, h1, h2, h3⟩ := reconcile_create_shape p env (isAsyncOf p) hname2 hid2 hstate
  refine ⟨rest, ?_, hlev, h2, fun hfail => ?_⟩
  · simp [perform_module_operation, hcl, hname2, hlook, h1]
  · obtain ⟨hrest, m, hm⟩ := h3 hfail
    exact ⟨hrest, m, by simp [perform_module_operation, hcl, hname2, hlook, hm, outcomeOf]⟩

/-- C2 witness at a concrete input. -/
theorem exchange_once_before_create_witness :
    ∃ rest, (perform_module_operation pCreate env0).2
        = .getClusters :: ([.lookupAddr "10.9.9.9"] ++ .exchange (exchDict pCreate) :: rest) ∧
      (([.lookupAddr "10.9.9.9"] : List Event).all fun e => !isMutation e) = true ∧
      (rest.all fun e => !isExchange e) = true ∧
      (env0.exchangeCert (exchDict pCreate) ≠ .ok () → rest = [] ∧
        ∃ m, (perform_module_operation pCreate env0).1 = .fail m) :=
  exchange_once_before_create pCreate env0 ⟨"cl", "cid"⟩ [.lookupAddr "10.9.9.9"]
    rfl rfl rfl rfl rfl

/-- C3: for every spec with state=present that passes the identifier
guard and the name cross-check, where the lookup finds an existing
system and no patch field is both non-null and differing, the run is a
no-op: changed=false, null job, the fetched record returned
unmodified, and only read-only events in the trace. -/
theorem present_no_diff_noop (p : Params) (env : Env) (c : Cluster)
    (d : RemoteSys) (levs : List Event)
    (hcl : env.get_cluster_list = .ok [c])
    (hguard : (truthyS p.remote_name && !truthyS p.remote_address && !truthyS p.remote_id) = false)
    (hlook : get_remote_system_details env p.remote_address p.remote_id = (.ok (some d), levs))
    (hnok : ¬(truthyS p.remote_name = true ∧ p.remote_name ≠ some d.name))
    (hstate : p.state = "present")
    (hmod : modify_remote_system_required (toDict d) (modifyDict p) = false) :
    (perform_module_operation p env).1 = .exit ⟨false, none, some (some d)⟩ ∧
    (perform_module_operation p env).2 = .getClusters :: levs ∧
    (levs.all fun e => !isMutation e) = true := by
  have hlev := lookup_no_mutation env p.remote_address p.remote_id
  rw [hlook] at hlev
  have hbf : ∃ x y, backfill p.remote_id p.remote_name p.remote_address d
      = .ok ((if truthyS p.remote_id then p.remote_id else some d.id), x, y) := by
    simp only [backfill]
    rw [if_neg hnok]
    by_cases ht : truthyS p.remote_name = true
    · rw [if_pos ht]; exact ⟨_, _, rfl⟩
    · rw [if_neg ht]; exact ⟨_, _, rfl⟩
  obtain ⟨x, y, hbf⟩ := hbf
  have htn0 : truthyS none = false := rfl
  refine ⟨?_, ?_, hlev⟩ <;>
    simp [perform_module_operation, hcl, hguard, hlook, reconcile_core, hbf, modify_stage,
          liftStage, outcomeOf, mkResult, htn0, hstate, hmod]

/-- C3 witness at a concrete input. -/
theorem present_no_diff_noop_witness :
    (perform_module_operation pNoop env0).1 = .exit ⟨false, none, some (some d0)⟩ ∧
    (perform_module_operation pNoop env0).2 = .getClusters :: [.lookupId (some "abc")] ∧
    (([.lookupId (some "abc")] : List Event).all fun e => !isMutation e) = true :=
  present_no_diff_noop pNoop env0 ⟨"cl", "cid"⟩ d0 [.lookupId (some "abc")]
    rfl (by decide) rfl (by decide) rfl (by decide)

/-- C4: for every spec with state=absent that passes the identifier
guard, where the lookup finds no matching system, the run exits with
changed=false, a null job handle, null details, and issues no mutating
Array Client call: the trace is the cluster query plus the read-only
lookup events. -/
theorem absent_not_found_noop (p : Params) (env : Env) (c : Cluster) (levs : List Event)
    (hcl : env.get_cluster_list = .ok [c])
    (hguard : (truthyS p.remote_name && !truthyS p.remote_address && !truthyS p.remote_id) = false)
    (hlook : get_remote_system_details env p.remote_address p.remote_id = (.ok none, levs))
    (hstate : p.state = "absent") :
    (perform_module_operation p env).1 = .exit ⟨false, none, some none⟩ ∧
    (perform_module_operation p env).2 = .getClusters :: levs ∧
    (levs.all fun e => !isMutation e) = true := by
  have hlev := lookup_no_mutation env p.remote_address p.remote_id
  rw [hlook] at hlev
  have htn0 : truthyS none = false := rfl
  refine ⟨?_, ?_, hlev⟩ <;>
    simp [perform_module_operation, hcl, hguard, hlook, reconcile_core, modify_stage,
          liftStage, outcomeOf, isAsyncOf, mkResult, htn0, hstate]

/-- C4 witness at a concrete input. -/
theorem absent_not_found_noop_witness :
    (perform_module_operation { pBase with remote_address := some "10.9.9.9", state := "absent" } env0).1
      = .exit ⟨false, none, some none⟩ ∧
    (perform_module_operation { pBase with remote_address := some "10.9.9.9", state := "absent" } env0).2
      = .getClusters :: [.lookupAddr "10.9.9.9"] ∧
    (([.lookupAddr "10.9.9.9"] : List Event).all fun e => !isMutation e) = true :=
  absent_not_found_noop _ env0 ⟨"cl", "cid"⟩ [.lookupAddr "10.9.9.9"] rfl (by decide) rfl rfl

/-- C5 counterexample: `remote_id` supplied as the empty string (not
omitted) with state=present and no existing match is not rejected:
the line-556 truthiness test treats it as absent, so the run issues
the certificate exchange and the create call and exits successfully
instead of failing. -/
theorem create_proceeds_on_empty_id :
    (some "" : Option String) ≠ none ∧
    (perform_module_operation pEmptyId env0).2.filter isMutation
      = [.exchange (exchDict pEmptyId),
         .create [("management_address", none), ("description", none),
                  ("data_network_latency", none)]] ∧
    (perform_module_operation pEmptyId env0).1 = .exit (mkResult true none (some d0)) := by
  decide

/-- C5 as amended: with state=present, no existing match found, and a
truthy (non-empty) remote_id or remote_name supplied, the run fails
with a fatal input error before issuing any exchange or create call
(no trace event is a mutation); a remote_id or remote_name supplied as
the empty string is Python-falsy and does not trigger the
rejection. -/
theorem create_rejects_supplied_id_name (p : Params) (env : Env) (c : Cluster) (levs : List Event)
    (hcl : env.get_cluster_list = .ok [c])
    (hlook : get_remote_system_details env p.remote_address p.remote_id = (.ok none, levs))
    (hstate : p.state = "present")
    (hsup : truthyS p.remote_id = true ∨ truthyS p.remote_name = true) :
    (∃ m, (perform_module_operation p env).1 = .fail m) ∧
    ((perform_module_operation p env).2.all fun e => !isMutation e) = true := by
  have hlev := lookup_no_mutation env p.remote_address p.remote_id
  rw [hlook] at hlev
  have hlev2 : (levs.all fun e => !isMutation e) = true := hlev
  have hgc : isMutation Event.getClusters = false := rfl
  rcases hsup with h | h
  · constructor
    · exact ⟨"remote_id/remote_name cannot be passed during creation. Please enter valid parameters for creation of remote system.",
        by simp [perform_module_operation, hcl, hlook, reconcile_core, outcomeOf, hstate, h]⟩
    · simp [perform_module_operation, hcl, hlook, reconcile_core, outcomeOf, hstate, h,
            List.all_cons, List.all_append, hlev2, hgc]
  · by_cases haf : truthyS p.remote_address = false ∧ truthyS p.remote_id = false
    · obtain ⟨h1, h2⟩ := haf
      constructor
      · exact ⟨"With remote_name, remote_address or remote_id is required to perform Get/Update/Delete.",
          by simp [perform_module_operation, hcl, h, h1, h2]⟩
      · simp [perform_module_operation, hcl, h, h1, h2, List.all_cons, hgc]
    · constructor
      · exact ⟨"remote_id/remote_name cannot be passed during creation. Please enter valid parameters for creation of remote system.",
          by simp [perform_module_operation, hcl, hlook, reconcile_core, outcomeOf, hstate,
                   h, haf]⟩
      · simp [perform_module_operation, hcl, hlook, reconcile_core, outcomeOf, hstate, h, haf,
              List.all_cons, List.all_append, hlev2, hgc]

/-- C5 witness at a concrete input. -/
theorem create_rejects_supplied_id_name_witness :
    (∃ m, (perform_module_operation pReject env0).1 = .fail m) ∧
    ((perform_module_operation pReject env0).2.all fun e => !isMutation e) = true :=
  create_rejects_supplied_id_name pReject env0 ⟨"cl", "cid"⟩ [.lookupAddr "10.9.9.9"]
    rfl rfl rfl (Or.inl (by decide))

/-- C6: a 404-class failure in either lookup branch maps to an absent
(`none`) result so reconciliation continues, while any other failure
is fatal: the lookup reports an error and at the reconciler level the
whole run fails with no mutating call issued. -/
theorem lookup_maps_404_to_absent (env : Env) (a : String) (ha : a ≠ "") (i : Option String) :
    (env.byAddress a = .http404 →
      get_remote_system_details env (some a) i = (.ok none, [.lookupAddr a])) ∧
    (env.byId i = .http404 →
      get_remote_system_details env none i = (.ok none, [.lookupId i])) ∧
    (∀ m, env.byAddress a = .err m →
      get_remote_system_details env (some a) i
        = (.error ("Get details of remote system failed with error : " ++ m), [.lookupAddr a])) ∧
    (∀ m, env.byId i = .err m →
      get_remote_system_details env none i
        = (.error ("Get details of remote system failed with error : " ++ m), [.lookupId i])) ∧
    (∀ p c m, env.get_cluster_list = .ok [c] → p.remote_name = none →
      p.remote_address = some a → env.byAddress a = .err m →
      (perform_module_operation p env).1
        = .fail ("Get details of remote system failed with error : " ++ m) ∧
      (perform_module_operation p env).2.filter isMutation = []) := by
  refine ⟨?_, ?_, ?_, ?_, ?_⟩
  · intro h; simp [get_remote_system_details, ha, h]
  · intro h; simp [get_remote_system_details, lookupByIdPath, h]
  · intro m h; simp [get_remote_system_details, ha, h]
  · intro m h; simp [get_remote_system_details, lookupByIdPath, h]
  · intro p c m hcl hname haddr herr
    simp [perform_module_operation, get_remote_system_details, truthyS, hcl, hname, haddr,
          ha, herr, isMutation]

/-- C6 witness at a concrete input. -/
theorem lookup_maps_404_to_absent_witness :
    get_remote_system_details envErr none none = (.ok none, [.lookupId none]) ∧
    get_remote_system_details envErr (some "10.1.1.1") none
      = (.error ("Get details of remote system failed with error : " ++ "boom"),
         [.lookupAddr "10.1.1.1"]) :=
  ⟨(lookup_maps_404_to_absent envErr "10.1.1.1" (by decide) none).2.1 rfl,
   (lookup_maps_404_to_absent envErr "10.1.1.1" (by decide) none).2.2.1 "boom" rfl⟩

/-- C7 counterexample: the lookup finds `d0`, and the caller supplied
`remote_name` as the empty string, which differs from the found name
"peer1" — yet the run does not fail: the line-543 truthiness test
skips the cross-check for a falsy name, and the run proceeds to issue
a modify call and exits successfully. -/
theorem empty_name_mismatch_not_fatal :
    (some "" : Option String) ≠ none ∧
    "" ≠ d0.name ∧
    (perform_module_operation pEmptyName env0).1
      = .exit (mkResult true (some "job1") (some d0)) ∧
    (perform_module_operation pEmptyName env0).2.filter isMutation
      = [.modify (some "abc") (modifyDict pEmptyName) true] := by
  decide

/-- C7 as amended: whenever the lookup succeeds and the caller
supplied a truthy (non-empty) remote_name differing from the found
system's name, the run fails with a fatal input error before any
mutation is attempted (no trace event is a mutation), whatever the
requested state; an empty supplied remote_name is Python-falsy and
skips the cross-check. -/
theorem name_mismatch_fails (p : Params) (env : Env) (c : Cluster) (n : String)
    (d : RemoteSys) (levs : List Event)
    (hcl : env.get_cluster_list = .ok [c])
    (hn : p.remote_name = some n) (hne : n ≠ "")
    (hlook : get_remote_system_details env p.remote_address p.remote_id = (.ok (some d), levs))
    (hnm : n ≠ d.name) :
    (∃ m, (perform_module_operation p env).1 = .fail m) ∧
    ((perform_module_operation p env).2.all fun e => !isMutation e) = true := by
  have hlev := lookup_no_mutation env p.remote_address p.remote_id
  rw [hlook] at hlev
  have hlev2 : (levs.all fun e => !isMutation e) = true := hlev
  have hgc : isMutation Event.getClusters = false := rfl
  have htn : truthyS p.remote_name = true := by rw [hn]; simp [truthyS, hne]
  by_cases haf : truthyS p.remote_address = false ∧ truthyS p.remote_id = false
  · obtain ⟨h1, h2⟩ := haf
    constructor
    · exact ⟨"With remote_name, remote_address or remote_id is required to perform Get/Update/Delete.",
        by simp [perform_module_operation, hcl, htn, h1, h2]⟩
    · simp [perform_module_operation, hcl, htn, h1, h2, List.all_cons, hgc]
  · have hng := haf
    simp only [truthyS, decide_not] at hng
    constructor
    · exact ⟨"Please enter a valid remote_name. It is not matching the fetched remote system instance",
        by simp [perform_module_operation, hcl, hlook, reconcile_core, backfill, outcomeOf,
                 truthyS, hn, hne, hnm, hng]⟩
    · simp [perform_module_operation, hcl, hlook, reconcile_core, backfill, outcomeOf,
            truthyS, hn, hne, hnm, hng, List.all_cons, List.all_append, hlev2, hgc]

/-- C7 witness at a concrete input. -/
theorem name_mismatch_fails_witness :
    (∃ m, (perform_module_operation pMismatch env0).1 = .fail m) ∧
    ((perform_module_operation pMismatch env0).2.all fun e => !isMutation e) = true :=
  name_mismatch_fails pMismatch env0 ⟨"cl", "cid"⟩ "other" d0 [.lookupAddr "10.1.1.1"]
    rfl rfl (by decide) rfl (by decide)

/-- C8 counterexample: with `remote_id="abc"`, `remote_name=""`
(supplied but empty, hence not omitted) and `remote_address` omitted,
the back-fill still adopts the found record's management address —
refuting "adopted only when both remote_name and remote_address were
omitted". -/
theorem backfill_adopts_address_despite_empty_name :
    backfill (some "abc") (some "") none d0
      = .ok (some "abc", some "peer1", some "10.1.1.1") ∧
    d0.management_address = "10.1.1.1" ∧
    (some "" : Option String) ≠ none :=
  ⟨rfl, rfl, by decide⟩

/-- C8 as amended: when a record is found and the name cross-check
passes, a caller-omitted `remote_id` is replaced by the found id and a
caller-omitted `remote_name` by the found name (as the claim states),
while the found management address is adopted as `remote_address`
exactly when both `remote_name` and `remote_address` are falsy
(caller-omitted or empty string) — not only when both were omitted. -/
theorem backfill_spec (rid rname raddr : Option String) (d : RemoteSys)
    (hok : ¬(truthyS rname = true ∧ rname ≠ some d.name)) :
    ∃ rid2 rname2 raddr2,
      backfill rid rname raddr d = .ok (rid2, rname2, raddr2) ∧
      (rid = none → rid2 = some d.id) ∧
      (rname = none → rname2 = some d.name) ∧
      (truthyS rname = false → truthyS raddr = false → raddr2 = some d.management_address) ∧
      (truthyS rname = true → raddr2 = raddr) ∧
      (truthyS raddr = true → raddr2 = raddr) := by
  simp only [backfill]
  rw [if_neg hok]
  by_cases ht : truthyS rname = true
  · rw [if_pos ht]
    refine ⟨_, _, _, rfl, ?_, ?_, ?_, fun _ => rfl, fun _ => rfl⟩
    · intro h; subst h; simp [truthyS]
    · intro h; subst h; simp [truthyS] at ht
    · intro h; rw [h] at ht; exact absurd ht (by simp)
  · rw [if_neg ht]
    refine ⟨_, _, _, rfl, ?_, fun _ => rfl, ?_, ?_, ?_⟩
    · intro h; subst h; simp [truthyS]
    · intro _ h2; rw [h2]; simp
    · intro h; exact absurd h ht
    · intro h; rw [h]; simp

/-- C8 witness at a concrete input. -/
theorem backfill_spec_witness :
    ∃ rid2 rname2 raddr2,
      backfill none none none d0 = .ok (rid2, rname2, raddr2) ∧
      ((none : Option String) = none → rid2 = some d0.id) ∧
      ((none : Option String) = none → rname2 = some d0.name) ∧
      (truthyS none = false → truthyS none = false → raddr2 = some d0.management_address) ∧
      (truthyS none = true → raddr2 = none) ∧
      (truthyS none = true → raddr2 = none) :=
  backfill_spec none none none d0 (by decide)

/-- C9: the diff predicate holds iff some entry of the fetched record
has its key in the patch map with a non-null value different from the
entry's value; and inserting a patch entry whose key is absent from
the fetched record — even non-null — never changes the verdict. -/
theorem required_iff_record_keys (record : List (String × Option String)) :
    (∀ patch, (modify_remote_system_required record patch = true ↔
      ∃ k v w, (k, v) ∈ record ∧ List.lookup k patch = some (some w) ∧ v ≠ some w)) ∧
    (∀ (k : String) (w : String) patch, k ∉ record.map Prod.fst →
      modify_remote_system_required record ((k, some w) :: patch)
        = modify_remote_system_required record patch) := by
  constructor
  · intro patch
    unfold modify_remote_system_required
    rw [List.any_eq_true]
    constructor
    · rintro ⟨⟨k, v⟩, hmem, hf⟩
      rcases hl : List.lookup k patch with _ | ov
      · simp [hl] at hf
      · rcases ov with _ | w
        · simp [hl] at hf
        · simp only [hl, decide_eq_true_eq] at hf
          exact ⟨k, v, w, hmem, hl, hf⟩
    · rintro ⟨k, v, w, hmem, hl, hne⟩
      exact ⟨(k, v), hmem, by simp [hl, hne]⟩
  · intro k w patch hk
    induction record with
    | nil => rfl
    | cons kv tl ih =>
        simp only [List.map_cons, List.mem_cons, not_or] at hk
        obtain ⟨hk1, hk2⟩ := hk
        have hne2 : (kv.1 == k) = false := by
          simp only [beq_eq_false_iff_ne]
          exact fun h => hk1 h.symm
        have hlk : List.lookup kv.1 ((k, some w) :: patch) = List.lookup kv.1 patch := by
          simp [List.lookup, hne2]
        have htl := ih (by simpa using hk2)
        unfold modify_remote_system_required at htl ⊢
        simp only [List.any_cons, hlk, htl]

/-- C9 witness at a concrete input. -/
theorem required_iff_record_keys_witness :
    modify_remote_system_required recW (("extra", some "x") :: [("description", some "e")])
      = modify_remote_system_required recW [("description", some "e")] :=
  (required_iff_record_keys recW).2 "extra" "x" [("description", some "e")] (by decide)

/-- The exit dictionary built by `mkResult` contains the
`remote_system_details` key exactly when the job handle is falsy. -/
theorem mkResult_details_iff (c : Bool) (j : Option String) (d : Option RemoteSys) :
    ((mkResult c j d).remote_system_details = none ↔ truthyS (mkResult c j d).job_details = true) := by
  unfold mkResult
  cases h : truthyS j <;> simp [h]

/-- Every exit outcome comes from `mkResult` applied to the triple
reaching source line 600. -/
theorem outcomeOf_exit (e : Except RunErr (Bool × Option String × Option RemoteSys))
    (r : ResultDict) (h : outcomeOf e = .exit r) :
    ∃ c j dets, r = mkResult c j dets := by
  rcases e with er | t
  · rcases er with m | _ <;> simp [outcomeOf] at h
  · obtain ⟨c, j, dets⟩ := t
    simp only [outcomeOf, Outcome.exit.injEq] at h
    exact ⟨c, j, dets, h.symm⟩

/-- C10: every successfully exiting run's result dictionary (which by
construction always carries `changed` and `job_details`) contains the
`remote_system_details` key exactly when `job_details` is null or
falsy. -/
theorem exit_contains_details_iff_job_falsy (p : Params) (env : Env) (r : ResultDict)
    (h : (perform_module_operation p env).1 = .exit r) :
    (r.remote_system_details = none ↔ truthyS r.job_details = true) := by
  unfold perform_module_operation at h
  cases hc : env.get_cluster_list with
  | http404 => rw [hc] at h; simp at h
  | err m => rw [hc] at h; simp at h
  | ok clusters =>
      rw [hc] at h
      dsimp only at h
      by_cases hlen : clusters.length > 0
      · rw [if_pos hlen] at h
        by_cases hg : (truthyS p.remote_name && !truthyS p.remote_address && !truthyS p.remote_id) = true
        · rw [if_pos hg] at h; simp at h
        · rw [if_neg hg] at h
          rcases hl : get_remote_system_details env p.remote_address p.remote_id with ⟨e, evs⟩
          rw [hl] at h
          rcases e with m | dets0
          · simp at h
          · dsimp only at h
            obtain ⟨c2, j2, d2, rfl⟩ := outcomeOf_exit _ _ h
            exact mkResult_details_iff _ _ _
      · rw [if_neg hlen] at h; simp at h

/-- C10 witness at a concrete input. -/
theorem exit_contains_details_iff_job_falsy_witness :
    ((⟨false, none, some (some d0)⟩ : ResultDict).remote_system_details = none ↔
      truthyS (⟨false, none, some (some d0)⟩ : ResultDict).job_details = true) :=
  exit_contains_details_iff_job_falsy pNoop env0 ⟨false, none, some (some d0)⟩ (by decide)

end RemoteSystemMod
